import Mathlib

/-!
Verification development for the x402-ParsePro repository
(src/x402_parsepro/app.py): a pydantic model of payment requirements,
an httpx response hook that handles HTTP 402 Payment Required by
attaching a signed payment header and resending once, and the
parse_pdf tool wrapper around the intercepted exchange.

The Python code is shallowly embedded: pure validators become Lean
functions; the stateful response hook becomes a function from the hook
state and response to an explicit result record that also carries a
trace of the side effects (resends attempted, timeout used, final state
of the mutated request object); external collaborators (JSON parsing,
the x402 signing client, the network) are oracle parameters.
-/

namespace X402

/-! ## Python `int(str)` parsing, used by `validate_max_amount_required` -/

/-- Characters stripped by Python when converting a string to `int`
(ASCII whitespace: space, tab, newline, carriage return, vertical tab,
form feed). -/
def isPySpace (c : Char) : Bool :=
  ([32, 9, 10, 13, 11, 12] : List Nat).contains c.toNat

/-- Digit-group well-formedness for CPython `int()`: after the first
character, each character is a digit, or an underscore that sits
between two digits. -/
def pyDigitsAux : List Char → Bool
  | [] => true
  | [c] => c.isDigit
  | c :: c2 :: rest =>
      (if c = '_' then c2.isDigit else c.isDigit) && pyDigitsAux (c2 :: rest)

/-- A nonempty digit string, underscores allowed only between digits
(CPython decimal literal grouping). -/
def pyDigitsOk : List Char → Bool
  | [] => false
  | c :: rest => c.isDigit && pyDigitsAux (c :: rest)

/-- Decimal value of a digit list, skipping grouping underscores. -/
def digitsToNat (cs : List Char) : Nat :=
  cs.foldl (fun n c => if c = '_' then n else n * 10 + (c.toNat - 48)) 0

/-- Model of CPython `int(s)` on an ASCII decimal string: strip
surrounding whitespace, allow one optional sign, then a digit group.
Returns `none` where `int(s)` raises `ValueError`. -/
def pyIntParse (s : String) : Option Int :=
  let cs := ((s.toList.dropWhile isPySpace).reverse.dropWhile isPySpace).reverse
  match cs with
  | '+' :: rest => if pyDigitsOk rest then some ((digitsToNat rest : Nat) : Int) else none
  | '-' :: rest => if pyDigitsOk rest then some (-((digitsToNat rest : Nat) : Int)) else none
  | l => if pyDigitsOk l then some ((digitsToNat l : Nat) : Int) else none

/-! ## PaymentRequirements model and its field validators -/

/-- Validator `PaymentRequirements.validate_max_amount_required`: evaluates
`0 if len(v) == 0 else int(v)` and rejects exactly when `int(v)`
raises `ValueError`; the parsed value is discarded and `v` is stored. -/
def validate_max_amount_required (v : String) : Except String String :=
  if v.length = 0 then .ok v
  else
    match pyIntParse v with
    | some _ => .ok v
    | none => .error "max_amount_required must be an integer encoded as a string"

/-- Validator `PaymentRequirements.validate_network`: rewrite the chain-id alias
to its canonical short name, pass every other value through. -/
def validate_network (v : String) : String :=
  if v = "eip155:8453" then "base" else v

/-- The pydantic `PaymentRequirements` model. `output_schema` and
`extra` are `Optional[Any]` opaque payloads, modelled as opaque
strings. -/
structure PaymentRequirements where
  scheme : String
  network : String
  max_amount_required : String
  resource : String
  description : String
  mime_type : String
  output_schema : Option String
  pay_to : String
  max_timeout_seconds : Int
  asset : String
  extra : Option String
deriving DecidableEq, Repr

/-- Construction of a `PaymentRequirements` value: pydantic runs the
field validators in field-definition order (`network` before
`max_amount_required`); construction fails iff a validator raises. -/
def mkPaymentRequirements (scheme network max_amount_required resource
    description mime_type : String) (output_schema : Option String)
    (pay_to : String) (max_timeout_seconds : Int) (asset : String)
    (extra : Option String) : Except String PaymentRequirements :=
  let net := validate_network network
  match validate_max_amount_required max_amount_required with
  | .error e => .error e
  | .ok mar =>
      .ok { scheme := scheme, network := net, max_amount_required := mar,
            resource := resource, description := description,
            mime_type := mime_type, output_schema := output_schema,
            pay_to := pay_to, max_timeout_seconds := max_timeout_seconds,
            asset := asset, extra := extra }

/-- The pydantic `x402PaymentRequiredResponse` model (the 402 challenge
body). -/
structure x402PaymentRequiredResponse where
  x402_version : Int
  accepts : List PaymentRequirements
  error : String
deriving DecidableEq, Repr

/-! ## HTTP objects -/

/-- Case-sensitive header map in insertion order (the exact header
names of the protocol are used throughout). -/
abbrev Headers := List (String × String)

/-- Assignment `headers[k] = v`: replace the existing entry, otherwise append. -/
def setHeader : Headers → String → String → Headers
  | [], k, v => [(k, v)]
  | p :: t, k, v => if p.1 = k then (k, v) :: t else p :: setHeader t k v

/-- Lookup `k in headers`. -/
def getHeader (hs : Headers) (k : String) : Option String :=
  (hs.find? (fun p => p.1 = k)).map Prod.snd

/-- An httpx `Request`: only the parts the hook touches (headers) plus
opaque url/body. -/
structure Request where
  url : String
  body : String
  headers : Headers
deriving DecidableEq, Repr

/-- An httpx `Response`: status code, headers, read body content, and
the request it answered (`response.request`, which may be unset). -/
structure Response where
  status_code : Nat
  headers : Headers
  content : String
  request : Option Request
deriving DecidableEq, Repr

/-! ## Exceptions -/

/-- The Python exceptions the hook distinguishes. `cause` records the
`from e` chained cause of a wrapped `PaymentError`.
`MissingRequestConfigError` subclasses `PaymentError` in the x402
client library, `ValueError` does not. -/
inductive PyExc where
  | paymentError (msg : String) (cause : Option String)
  | missingRequestConfigError (msg : String)
  | valueError (msg : String)
  | otherError (msg : String)
deriving DecidableEq, Repr

/-- Whether `except PaymentError` catches the exception. -/
def PyExc.isPaymentError : PyExc → Bool
  | .paymentError _ _ => true
  | .missingRequestConfigError _ => true
  | .valueError _ => false
  | .otherError _ => false

/-- Message text used when wrapping (`str(e)` of the original). -/
def PyExc.msg : PyExc → String
  | .paymentError m _ => m
  | .missingRequestConfigError m => m
  | .valueError m => m
  | .otherError m => m

/-! ## The response hook (`HttpxHooks.on_response`) -/

/-- The x402 signing client consumed by the hook: requirement
selection and payment-header creation, each of which may raise. -/
structure X402ClientModel where
  select_payment_requirements :
    List PaymentRequirements → Except PyExc PaymentRequirements
  create_payment_header :
    PaymentRequirements → Int → Except PyExc String

/-- External world of the hook: `response.json()` +
`x402PaymentRequiredResponse(**data)` as one fallible parse of the
body, and `AsyncClient(timeout=t).send(request)` where `t = none`
means `Timeout(timeout=None)` (no deadline) and `some n` a deadline of
`n` seconds. -/
structure NetworkModel where
  parse_challenge : String → Except PyExc x402PaymentRequiredResponse
  send : Request → Option Nat → Except PyExc Response

/-- The `HttpxHooks` instance state: the signing client and the
`_is_retry` flag. -/
structure HttpxHooks where
  client : X402ClientModel
  is_retry : Bool

/-- One resend attempted by the hook: the request object handed to
`client.send`, the timeout configured on the fresh `AsyncClient`, and
the value of `_is_retry` at the moment of the send. -/
structure ResendEvent where
  request : Request
  timeout : Option Nat
  is_retry_at_send : Bool
deriving DecidableEq, Repr

/-- Result of one `on_response` call: the returned response or raised
exception, the `_is_retry` flag afterwards, the trace of resends and
oracle calls, and the state of the `response.request` object after the
call (it is mutated in place on the retry path). -/
structure OnResponseResult where
  outcome : Except PyExc Response
  is_retry : Bool
  resends : List ResendEvent
  parse_calls : Nat
  select_calls : Nat
  create_calls : Nat
  final_request : Option Request
deriving Repr

/-- The two `except` clauses: `except PaymentError` re-raises `e`
unchanged, `except Exception` wraps it as
`PaymentError(f"Failed to handle payment: {str(e)}") from e`; both
first reset `_is_retry` to `False`. -/
def handleExc (e : PyExc) : Except PyExc Response :=
  if e.isPaymentError then .error e
  else .error (.paymentError ("Failed to handle payment: " ++ e.msg) (some e.msg))

/-- The in-place header mutation of the retry path:
`request.headers["X-Payment"] = payment_header` and
`request.headers["Access-Control-Expose-Headers"] = "X-Payment-Response"`. -/
def withPaymentHeaders (req : Request) (payment_header : String) : Request :=
  let hs := setHeader req.headers "X-Payment" payment_header
  let hs := setHeader hs "Access-Control-Expose-Headers" "X-Payment-Response"
  { req with headers := hs }

/-- The hook `HttpxHooks.on_response`, straight from the source: pass through
non-402s and already-retried responses; otherwise read and parse the
challenge, select a requirement, create the payment header, set
`_is_retry`, add the two headers to `response.request` itself (no
copy), resend it on a fresh `AsyncClient` with `Timeout(timeout=None)`,
and overwrite the original response object's status/headers/content
with the retried response's before returning it. -/
def on_response (net : NetworkModel) (hooks : HttpxHooks)
    (response : Response) : OnResponseResult :=
  if response.status_code ≠ 402 then
    { outcome := .ok response, is_retry := hooks.is_retry, resends := [],
      parse_calls := 0, select_calls := 0, create_calls := 0,
      final_request := response.request }
  else if hooks.is_retry then
    { outcome := .ok response, is_retry := hooks.is_retry, resends := [],
      parse_calls := 0, select_calls := 0, create_calls := 0,
      final_request := response.request }
  else
    match response.request with
    | none =>
        { outcome := handleExc (.missingRequestConfigError "Missing request configuration"),
          is_retry := false, resends := [],
          parse_calls := 0, select_calls := 0, create_calls := 0,
          final_request := none }
    | some req0 =>
        match net.parse_challenge response.content with
        | .error e =>
            { outcome := handleExc e, is_retry := false, resends := [],
              parse_calls := 1, select_calls := 0, create_calls := 0,
              final_request := some req0 }
        | .ok payment_response =>
            match hooks.client.select_payment_requirements payment_response.accepts with
            | .error e =>
                { outcome := handleExc e, is_retry := false, resends := [],
                  parse_calls := 1, select_calls := 1, create_calls := 0,
                  final_request := some req0 }
            | .ok selected_requirements =>
                match hooks.client.create_payment_header selected_requirements
                    payment_response.x402_version with
                | .error e =>
                    { outcome := handleExc e, is_retry := false, resends := [],
                      parse_calls := 1, select_calls := 1, create_calls := 1,
                      final_request := some req0 }
                | .ok payment_header =>
                    let request := withPaymentHeaders req0 payment_header
                    match net.send request none with
                    | .error e =>
                        { outcome := handleExc e, is_retry := false,
                          resends := [⟨request, none, true⟩],
                          parse_calls := 1, select_calls := 1, create_calls := 1,
                          final_request := some request }
                    | .ok retry_response =>
                        { outcome := .ok
                            { response with
                                status_code := retry_response.status_code,
                                headers := retry_response.headers,
                                content := retry_response.content,
                                request := some request },
                          is_retry := true,
                          resends := [⟨request, none, true⟩],
                          parse_calls := 1, select_calls := 1, create_calls := 1,
                          final_request := some request }

/-! ## The `parse_pdf` tool wrapper -/

/-- Python `s.startswith(pre)`. -/
def pyStartswith (s pre : String) : Bool :=
  pre.toList.isPrefixOf s.toList

/-- Value of `HTTPX_DEFAULT_TIMEOUT` with the environment variable unset: the
source default string `"60"`. -/
def httpx_default_timeout : String := "60"

/-- The timeout configured on the outer `_x402HttpxClient`:
`Timeout(int(httpx_default_timeout))`, i.e. a 60 second budget for the
whole exchange. -/
def parse_pdf_client_timeout : Option Nat :=
  (pyIntParse httpx_default_timeout).map Int.toNat

/-- The decoded `X-Payment-Response` settlement receipt; the code only
reads its `transaction` field. -/
structure SettlementReceipt where
  transaction : String
deriving DecidableEq, Repr

/-- External collaborators of `parse_pdf`: `Account.from_key`
(opaque, may raise on a bad key), the whole intercepted POST exchange
(`client.post` + `response.aread()`, with retries already applied by
the hooks), and `decode_x_payment_response`. -/
structure ParsePdfEnv where
  from_key : Except PyExc Unit
  post : Except PyExc Response
  decode_x_payment_response : String → Except PyExc SettlementReceipt

/-- What a `parse_pdf` call does: raise an exception out of the tool,
return the `{"result": ..., "hash": ...}` dict, or return the
`{"error": "Request failed"}` dict produced after a swallowed
exchange failure. -/
inductive ParsePdfResult where
  | raised (e : PyExc)
  | ok (result : String) (hash : Option String)
  | errorDict
deriving DecidableEq, Repr

/-- The tool `parse_pdf`, straight from the source: build the account, validate
the url prefix and the format (raising `ValueError` outside the
`try`), then run the exchange; inside the `try`, a missing
`X-Payment-Response` header only makes `hash` null, while any
exception is logged and turns into the `errorDict` result. The second
component counts HTTP POSTs issued. -/
def parse_pdf (env : ParsePdfEnv) (url format : String) :
    ParsePdfResult × Nat :=
  match env.from_key with
  | .error e => (.raised e, 0)
  | .ok _ =>
    if ¬ pyStartswith url "http" then
      (.raised (.valueError "PDF URL must be a valid URL starting with http or https"), 0)
    else if ¬ (format = "json" ∨ format = "markdown") then
      (.raised (.valueError "Format must be either json or markdown"), 0)
    else
      match env.post with
      | .error _ => (.errorDict, 1)
      | .ok response =>
        match getHeader response.headers "X-Payment-Response" with
        | none => (.ok response.content none, 1)
        | some hv =>
          match env.decode_x_payment_response hv with
          | .error _ => (.errorDict, 1)
          | .ok payment_response =>
              (.ok response.content (some payment_response.transaction), 1)

/-! ## Concrete values -/

/-- Whether an `Except` is a success (construction did not raise). -/
def isOkE {ε α : Type} : Except ε α → Bool
  | .ok _ => true
  | .error _ => false

/-! ## Concrete test fixtures (used by the claim witnesses) -/

/-- One concrete offered requirement (as the challenge would carry). -/
def sampleReq : PaymentRequirements :=
  { scheme := "exact", network := "base", max_amount_required := "1000",
    resource := "https://x402.api.netmind.ai/inference-api/agent/v1/parse-pdf",
    description := "parse pdf", mime_type := "application/json",
    output_schema := none, pay_to := "0xRecipient",
    max_timeout_seconds := 60, asset := "0xAsset", extra := none }

/-- A concrete original outgoing request, without payment headers. -/
def reqA : Request :=
  { url := "https://x402.api.netmind.ai/inference-api/agent/v1/parse-pdf",
    body := "pdf-request-body",
    headers := [("Content-Type", "application/json")] }

/-- The parsed challenge offering `sampleReq`. -/
def challengeA : x402PaymentRequiredResponse :=
  { x402_version := 1, accepts := [sampleReq], error := "payment required" }

/-- A signing client that selects the first offer and signs it as
`PAID123`. -/
def clientA : X402ClientModel :=
  { select_payment_requirements := fun accepts =>
      match accepts with
      | [] => .error (.paymentError "No acceptable payment requirements" none)
      | a :: _ => .ok a,
    create_payment_header := fun _ _ => .ok "PAID123" }

/-- A signing client whose selection always raises a payment-domain
error. -/
def clientSelectFail : X402ClientModel :=
  { select_payment_requirements := fun _ =>
      .error (.paymentError "No acceptable payment requirements" none),
    create_payment_header := fun _ _ => .ok "PAID123" }

/-- A signing client whose header creation raises a non-payment
error. -/
def clientCreateFail : X402ClientModel :=
  { select_payment_requirements := fun accepts =>
      match accepts with
      | [] => .error (.paymentError "No acceptable payment requirements" none)
      | a :: _ => .ok a,
    create_payment_header := fun _ _ => .error (.otherError "signing failed") }

/-- Fresh hook state (`_is_retry = False`). -/
def hooksA : HttpxHooks := { client := clientA, is_retry := false }

/-- Hook state already marked retried. -/
def hooksRetried : HttpxHooks := { client := clientA, is_retry := true }

/-- Hook state whose selection fails. -/
def hooksSelectFail : HttpxHooks := { client := clientSelectFail, is_retry := false }

/-- Hook state whose header creation fails. -/
def hooksCreateFail : HttpxHooks := { client := clientCreateFail, is_retry := false }

/-- A first 402 challenge response, carrying its request. -/
def resp402 : Response :=
  { status_code := 402, headers := [("Content-Type", "application/json")],
    content := "challenge-body", request := some reqA }

/-- A settled 200 response with a settlement header. -/
def respOK : Response :=
  { status_code := 200, headers := [("X-Payment-Response", "receipt-blob")],
    content := "parsed-result", request := none }

/-- A settled 200 response without a settlement header. -/
def respNoHdr : Response :=
  { status_code := 200, headers := [("Content-Type", "text/plain")],
    content := "parsed-result", request := none }

/-- A second 402, as returned to the resend. -/
def resp402Again : Response :=
  { status_code := 402, headers := [], content := "challenge-body",
    request := none }

/-- Network where parsing succeeds and the resend settles at 200. -/
def netOK : NetworkModel :=
  { parse_challenge := fun _ => .ok challengeA, send := fun _ _ => .ok respOK }

/-- Network where every response, including the resent one, is 402. -/
def netAlways402 : NetworkModel :=
  { parse_challenge := fun _ => .ok challengeA,
    send := fun _ _ => .ok resp402Again }

/-- Network whose challenge body does not parse (a JSON error, not a
payment-domain error). -/
def netParseFail : NetworkModel :=
  { parse_challenge := fun _ => .error (.otherError "Expecting value"),
    send := fun _ _ => .ok respOK }

/-- Network where the resend itself fails at transport level. -/
def netSendFail : NetworkModel :=
  { parse_challenge := fun _ => .ok challengeA,
    send := fun _ _ => .error (.otherError "connection reset") }

/-- parse_pdf environment: settled exchange without settlement
header. -/
def envNoReceipt : ParsePdfEnv :=
  { from_key := .ok (), post := .ok respNoHdr,
    decode_x_payment_response := fun _ => .error (.otherError "undecodable") }

/-- parse_pdf environment: settled exchange with a decodable
receipt. -/
def envWithReceipt : ParsePdfEnv :=
  { from_key := .ok (), post := .ok respOK,
    decode_x_payment_response := fun _ => .ok { transaction := "0xabc" } }

/-- parse_pdf environment: settled exchange whose settlement header is
present but does not decode. -/
def envBadReceipt : ParsePdfEnv :=
  { from_key := .ok (), post := .ok respOK,
    decode_x_payment_response := fun _ => .error (.otherError "undecodable") }

/-! ## Helper lemmas -/

theorem length_zero_iff_empty (s : String) : s.length = 0 ↔ s = "" := by
  constructor
  · intro h
    cases s with
    | mk data =>
      cases data with
      | nil => rfl
      | cons c cs => simp [String.length] at h
  · intro h
    subst h
    rfl

theorem getHeader_cons (p : String × String) (t : Headers) (k : String) :
    getHeader (p :: t) k = if p.1 = k then some p.2 else getHeader t k := by
  by_cases h : p.1 = k <;> simp [getHeader, List.find?, h]

theorem setHeader_cons (p : String × String) (t : Headers) (k v : String) :
    setHeader (p :: t) k v =
      if p.1 = k then (k, v) :: t else p :: setHeader t k v := rfl

theorem getHeader_setHeader (hs : Headers) (k k0 v : String) :
    getHeader (setHeader hs k v) k0 =
      if k0 = k then some v else getHeader hs k0 := by
  induction hs with
  | nil =>
      by_cases hk : k0 = k
      · subst hk
        simp [setHeader, getHeader_cons]
      · simp [setHeader, getHeader_cons, hk, Ne.symm hk, getHeader]
  | cons p t ih =>
      rw [setHeader_cons]
      by_cases hp : p.1 = k
      · rw [if_pos hp, getHeader_cons, getHeader_cons]
        by_cases hk : k0 = k
        · subst hk
          simp
        · have hpk : ¬ p.1 = k0 := by
            rw [hp]
            exact fun hc => hk hc.symm
          simp [hk, hpk, Ne.symm hk]
      · rw [if_neg hp, getHeader_cons, getHeader_cons]
        by_cases hpk : p.1 = k0
        · have hk : ¬ k0 = k := by
            rw [← hpk]
            exact hp
          simp [hpk, hk]
        · simp [hpk, ih]

theorem getHeader_withPaymentHeaders_payment (req : Request) (hdr : String) :
    getHeader (withPaymentHeaders req hdr).headers "X-Payment" = some hdr := by
  simp [withPaymentHeaders, getHeader_setHeader]

theorem getHeader_withPaymentHeaders_expose (req : Request) (hdr : String) :
    getHeader (withPaymentHeaders req hdr).headers "Access-Control-Expose-Headers" =
      some "X-Payment-Response" := by
  simp [withPaymentHeaders, getHeader_setHeader]

/-! ## Claim theorems -/

/-- C1: for every response whose status code is not 402, the response
hook returns that response unchanged — same status, headers and body —
performing no challenge parse, no requirement selection, no header
issuance and no resend, and leaving the flag and the request object
untouched. -/
theorem c1_non402_passthrough (net : NetworkModel) (hooks : HttpxHooks)
    (response : Response) (h : response.status_code ≠ 402) :
    on_response net hooks response =
      { outcome := .ok response, is_retry := hooks.is_retry, resends := [],
        parse_calls := 0, select_calls := 0, create_calls := 0,
        final_request := response.request } := by
  simp [on_response, h]

/-- Witness: c1_non402_passthrough at a concrete 200 response. -/
theorem c1_witness :
    on_response netOK hooksA respOK =
      { outcome := .ok respOK, is_retry := false, resends := [],
        parse_calls := 0, select_calls := 0, create_calls := 0,
        final_request := none } :=
  c1_non402_passthrough netOK hooksA respOK (by decide)

/-- C3 counterexample: the claim says strings parsing to a negative
integer are rejected, but the validator only requires `int(v)` not to
raise, so `"-5"` — which parses to the negative integer -5 — is
accepted and construction succeeds. -/
theorem c3_counterexample :
    isOkE (mkPaymentRequirements "exact" "base" "-5" "r" "d" "m" none "p" 60 "a" none)
        = true ∧
    pyIntParse "-5" = some (-5) ∧ (-5 : Int) < 0 := by
  refine ⟨by decide, by decide, by decide⟩

/-- C3 (amended): construction with `max_amount_required = v` succeeds
iff `v` is empty (treated as zero) or `v` parses as a Python integer,
with no sign restriction — negative integers are accepted; `"12.5"`
is still rejected and `""` accepted. -/
theorem c3_amended_acceptance (s n v r d m : String) (os : Option String)
    (p : String) (t : Int) (a : String) (ex : Option String) :
    isOkE (mkPaymentRequirements s n v r d m os p t a ex) = true ↔
      (v = "" ∨ (pyIntParse v).isSome = true) := by
  unfold mkPaymentRequirements validate_max_amount_required
  by_cases hv : v.length = 0
  · have hv2 : v = "" := (length_zero_iff_empty v).mp hv
    simp [hv, hv2, isOkE]
  · have hv2 : ¬ v = "" := fun hc => hv ((length_zero_iff_empty v).mpr hc)
    cases hpi : pyIntParse v with
    | none => simp [hv, hpi, isOkE, hv2]
    | some z => simp [hv, hpi, isOkE, hv2]

/-- C4: constructing a PaymentRequirements with `network = v` stores
`"base"` when `v` is the alias `"eip155:8453"` and stores `v` verbatim
otherwise (stated for any `max_amount_required` that validates, since
a value is only stored when construction succeeds). -/
theorem c4_network_normalization (s v mar r d m : String) (os : Option String)
    (p : String) (t : Int) (a : String) (ex : Option String)
    (h : isOkE (validate_max_amount_required mar) = true) :
    (mkPaymentRequirements s v mar r d m os p t a ex).map (fun pr => pr.network) =
      .ok (if v = "eip155:8453" then "base" else v) := by
  unfold mkPaymentRequirements
  cases hm : validate_max_amount_required mar with
  | error e =>
      rw [hm] at h
      simp [isOkE] at h
  | ok mar2 => simp [hm, validate_network, Except.map]

/-- Witness: c4_network_normalization at the alias value. -/
theorem c4_witness :
    isOkE (validate_max_amount_required "1000") = true ∧
    (mkPaymentRequirements "exact" "eip155:8453" "1000" "r" "d" "m" none "p" 60 "a" none).map
        (fun pr => pr.network) = .ok "base" := by
  refine ⟨by decide, ?_⟩
  have h := c4_network_normalization "exact" "eip155:8453" "1000" "r" "d" "m"
    none "p" 60 "a" none (by decide)
  simpa using h

/-- C2: at most one resend is ever attempted by a response-hook call;
once the retry flag is set, any subsequent 402 (indeed any response)
is returned to the caller unchanged with no resend; and in the
two-consecutive-402 scenario — a first 402 handled successfully whose
resend comes back 402 — the caller receives a 402 response with
exactly one resend attempted. -/
theorem c2_at_most_one_resend (net : NetworkModel) (hooks : HttpxHooks)
    (response : Response) :
    (on_response net hooks response).resends.length ≤ 1 ∧
    (hooks.is_retry = true →
      on_response net hooks response =
        { outcome := .ok response, is_retry := hooks.is_retry, resends := [],
          parse_calls := 0, select_calls := 0, create_calls := 0,
          final_request := response.request }) ∧
    (∀ req0 pr sel hdr rr,
      response.status_code = 402 → hooks.is_retry = false →
      response.request = some req0 →
      net.parse_challenge response.content = .ok pr →
      hooks.client.select_payment_requirements pr.accepts = .ok sel →
      hooks.client.create_payment_header sel pr.x402_version = .ok hdr →
      net.send (withPaymentHeaders req0 hdr) none = .ok rr →
      rr.status_code = 402 →
      ∃ final, (on_response net hooks response).outcome = .ok final ∧
        final.status_code = 402 ∧
        (on_response net hooks response).resends.length = 1) := by
  refine ⟨?_, ?_, ?_⟩
  · by_cases hs : response.status_code ≠ 402
    · simp [on_response, hs]
    · by_cases hr : hooks.is_retry
      · simp [on_response, hs, hr]
      · cases hreq : response.request with
        | none => simp [on_response, hs, hr, hreq]
        | some req0 =>
          cases hpc : net.parse_challenge response.content with
          | error e => simp [on_response, hs, hr, hreq, hpc]
          | ok pr =>
            cases hsel : hooks.client.select_payment_requirements pr.accepts with
            | error e => simp [on_response, hs, hr, hreq, hpc, hsel]
            | ok sel =>
              cases hcr : hooks.client.create_payment_header sel pr.x402_version with
              | error e => simp [on_response, hs, hr, hreq, hpc, hsel, hcr]
              | ok hdr =>
                cases hsend : net.send (withPaymentHeaders req0 hdr) none with
                | error e =>
                    simp [on_response, hs, hr, hreq, hpc, hsel, hcr, hsend]
                | ok rr =>
                    simp [on_response, hs, hr, hreq, hpc, hsel, hcr, hsend]
  · intro h
    unfold on_response
    split
    · rfl
    · simp [h]
  · intro req0 pr sel hdr rr h1 h2 h3 h4 h5 h6 h7 h8
    simp [on_response, h1, h2, h3, h4, h5, h6, h7, h8]

/-- Witness: c2_at_most_one_resend with the flag already set (the 402
passes through untouched), and on the scenario where the resend also
returns 402 (one resend, caller sees 402). -/
theorem c2_witness :
    (on_response netAlways402 hooksRetried resp402 =
      { outcome := .ok resp402, is_retry := true, resends := [],
        parse_calls := 0, select_calls := 0, create_calls := 0,
        final_request := some reqA }) ∧
    (∃ final, (on_response netAlways402 hooksA resp402).outcome = .ok final ∧
      final.status_code = 402 ∧
      (on_response netAlways402 hooksA resp402).resends.length = 1) := by
  constructor
  · exact (c2_at_most_one_resend netAlways402 hooksRetried resp402).2.1 rfl
  · exact (c2_at_most_one_resend netAlways402 hooksA resp402).2.2 reqA
      challengeA sampleReq "PAID123" resp402Again rfl rfl rfl rfl rfl rfl rfl rfl

/-- C5: on a successfully handled first 402 the resent request carries
`X-Payment` set to the issued credential and
`Access-Control-Expose-Headers: X-Payment-Response`, the retry flag is
already set at the moment of the resend, and the returned response
value carries the retried response's status, headers and body (the
original response object overwritten in place, one coherent value for
the caller). -/
theorem c5_successful_retry (net : NetworkModel) (hooks : HttpxHooks)
    (response : Response) (req0 : Request) (pr : x402PaymentRequiredResponse)
    (sel : PaymentRequirements) (hdr : String) (rr : Response)
    (h1 : response.status_code = 402) (h2 : hooks.is_retry = false)
    (h3 : response.request = some req0)
    (h4 : net.parse_challenge response.content = .ok pr)
    (h5 : hooks.client.select_payment_requirements pr.accepts = .ok sel)
    (h6 : hooks.client.create_payment_header sel pr.x402_version = .ok hdr)
    (h7 : net.send (withPaymentHeaders req0 hdr) none = .ok rr) :
    on_response net hooks response =
      { outcome := .ok
          { response with
              status_code := rr.status_code,
              headers := rr.headers,
              content := rr.content,
              request := some (withPaymentHeaders req0 hdr) },
        is_retry := true,
        resends := [{ request := withPaymentHeaders req0 hdr, timeout := none,
                      is_retry_at_send := true }],
        parse_calls := 1, select_calls := 1, create_calls := 1,
        final_request := some (withPaymentHeaders req0 hdr) } ∧
    getHeader (withPaymentHeaders req0 hdr).headers "X-Payment" = some hdr ∧
    getHeader (withPaymentHeaders req0 hdr).headers "Access-Control-Expose-Headers" =
      some "X-Payment-Response" := by
  refine ⟨?_, getHeader_withPaymentHeaders_payment req0 hdr,
    getHeader_withPaymentHeaders_expose req0 hdr⟩
  simp [on_response, h1, h2, h3, h4, h5, h6, h7]

/-- Witness: c5_successful_retry on the concrete settled exchange. -/
theorem c5_witness :
    on_response netOK hooksA resp402 =
      { outcome := .ok
          { status_code := 200,
            headers := [("X-Payment-Response", "receipt-blob")],
            content := "parsed-result",
            request := some (withPaymentHeaders reqA "PAID123") },
        is_retry := true,
        resends := [{ request := withPaymentHeaders reqA "PAID123",
                      timeout := none, is_retry_at_send := true }],
        parse_calls := 1, select_calls := 1, create_calls := 1,
        final_request := some (withPaymentHeaders reqA "PAID123") } ∧
    getHeader (withPaymentHeaders reqA "PAID123").headers "X-Payment" =
      some "PAID123" ∧
    getHeader (withPaymentHeaders reqA "PAID123").headers "Access-Control-Expose-Headers" =
      some "X-Payment-Response" :=
  c5_successful_retry netOK hooksA resp402 reqA challengeA sampleReq
    "PAID123" respOK rfl rfl rfl rfl rfl rfl rfl

/-- C6: whenever handling a first 402 fails — at the challenge parse,
the requirement selection, the payment-header creation, or the resend
itself — a payment-domain error (`PaymentError`, including its
`MissingRequestConfigError` subclass) is re-raised unchanged, any
other exception is wrapped as
`PaymentError("Failed to handle payment: " ++ msg)` carrying the
original cause, and in every case the retry flag is `False` when the
error propagates. -/
theorem c6_failure_handling (net : NetworkModel) (hooks : HttpxHooks)
    (response : Response) (req0 : Request)
    (h1 : response.status_code = 402) (h2 : hooks.is_retry = false)
    (h3 : response.request = some req0) :
    (∀ e0, net.parse_challenge response.content = .error e0 →
      (on_response net hooks response).outcome =
        .error (if e0.isPaymentError then e0 else
          .paymentError ("Failed to handle payment: " ++ e0.msg) (some e0.msg)) ∧
      (on_response net hooks response).is_retry = false) ∧
    (∀ pr e0, net.parse_challenge response.content = .ok pr →
      hooks.client.select_payment_requirements pr.accepts = .error e0 →
      (on_response net hooks response).outcome =
        .error (if e0.isPaymentError then e0 else
          .paymentError ("Failed to handle payment: " ++ e0.msg) (some e0.msg)) ∧
      (on_response net hooks response).is_retry = false) ∧
    (∀ pr sel e0, net.parse_challenge response.content = .ok pr →
      hooks.client.select_payment_requirements pr.accepts = .ok sel →
      hooks.client.create_payment_header sel pr.x402_version = .error e0 →
      (on_response net hooks response).outcome =
        .error (if e0.isPaymentError then e0 else
          .paymentError ("Failed to handle payment: " ++ e0.msg) (some e0.msg)) ∧
      (on_response net hooks response).is_retry = false) ∧
    (∀ pr sel hdr e0, net.parse_challenge response.content = .ok pr →
      hooks.client.select_payment_requirements pr.accepts = .ok sel →
      hooks.client.create_payment_header sel pr.x402_version = .ok hdr →
      net.send (withPaymentHeaders req0 hdr) none = .error e0 →
      (on_response net hooks response).outcome =
        .error (if e0.isPaymentError then e0 else
          .paymentError ("Failed to handle payment: " ++ e0.msg) (some e0.msg)) ∧
      (on_response net hooks response).is_retry = false) := by
  refine ⟨?_, ?_, ?_, ?_⟩
  · intro e0 hp
    constructor <;>
      simp [on_response, handleExc, h1, h2, h3, hp, apply_ite Except.error]
  · intro pr e0 hp hsel
    constructor <;>
      simp [on_response, handleExc, h1, h2, h3, hp, hsel, apply_ite Except.error]
  · intro pr sel e0 hp hsel hcr
    constructor <;>
      simp [on_response, handleExc, h1, h2, h3, hp, hsel, hcr, apply_ite Except.error]
  · intro pr sel hdr e0 hp hsel hcr hsend
    constructor <;>
      simp [on_response, handleExc, h1, h2, h3, hp, hsel, hcr, hsend,
        apply_ite Except.error]

/-- Witness: c6_failure_handling at four concrete failing exchanges —
a JSON parse failure (wrapped), a payment-domain selection failure
(re-raised unchanged), a signing failure (wrapped), and a transport
failure on the resend (wrapped); the flag is False in each. -/
theorem c6_witness :
    ((on_response netParseFail hooksA resp402).outcome =
        .error (.paymentError "Failed to handle payment: Expecting value"
          (some "Expecting value")) ∧
      (on_response netParseFail hooksA resp402).is_retry = false) ∧
    ((on_response netOK hooksSelectFail resp402).outcome =
        .error (.paymentError "No acceptable payment requirements" none) ∧
      (on_response netOK hooksSelectFail resp402).is_retry = false) ∧
    ((on_response netOK hooksCreateFail resp402).outcome =
        .error (.paymentError "Failed to handle payment: signing failed"
          (some "signing failed")) ∧
      (on_response netOK hooksCreateFail resp402).is_retry = false) ∧
    ((on_response netSendFail hooksA resp402).outcome =
        .error (.paymentError "Failed to handle payment: connection reset"
          (some "connection reset")) ∧
      (on_response netSendFail hooksA resp402).is_retry = false) := by
  refine ⟨?_, ?_, ?_, ?_⟩
  · have h := (c6_failure_handling netParseFail hooksA resp402 reqA
      rfl rfl rfl).1 (.otherError "Expecting value") rfl
    simpa using h
  · have h := (c6_failure_handling netOK hooksSelectFail resp402 reqA
      rfl rfl rfl).2.1 challengeA
      (.paymentError "No acceptable payment requirements" none) rfl rfl
    simpa using h
  · have h := (c6_failure_handling netOK hooksCreateFail resp402 reqA
      rfl rfl rfl).2.2.1 challengeA sampleReq
      (.otherError "signing failed") rfl rfl rfl
    simpa using h
  · have h := (c6_failure_handling netSendFail hooksA resp402 reqA
      rfl rfl rfl).2.2.2 challengeA sampleReq "PAID123"
      (.otherError "connection reset") rfl rfl rfl rfl
    simpa using h

/-- C7 (the code contradicts the claim): the resend is issued on a
fresh `AsyncClient` constructed with `Timeout(timeout=None)` — no
deadline at all — while the outer parse_pdf client runs the whole
exchange under a 60-second budget (`Timeout(int("60"))`); the retry
is therefore given an unlimited deadline, not the original budget. -/
theorem c7_retry_timeout_unbounded :
    (on_response netOK hooksA resp402).resends.map (fun ev => ev.timeout) =
      [none] ∧
    parse_pdf_client_timeout = some 60 ∧
    [(none : Option Nat)] ≠ [parse_pdf_client_timeout] := by
  refine ⟨by decide, by decide, by decide⟩

/-- C8 counterexample: handling the first 402 attaches the payment
headers to the original outgoing request object itself —
`response.request` afterwards carries `X-Payment: PAID123` and is no
longer equal to the original request, so the original is not left
unchanged and no clone is made. -/
theorem c8_counterexample :
    getHeader reqA.headers "X-Payment" = none ∧
    (on_response netOK hooksA resp402).final_request ≠ some reqA ∧
    ((on_response netOK hooksA resp402).final_request.map
        (fun r => getHeader r.headers "X-Payment")) = some (some "PAID123") := by
  refine ⟨by decide, by decide, by decide⟩

/-- C8 (amended): the payment headers are attached in place to the
original outgoing request object (`response.request`), and that same
mutated object is what is resent; whenever the original request did
not already carry an `X-Payment` header, the object observed after
the call differs from the original. -/
theorem c8_amended_in_place_mutation (net : NetworkModel) (hooks : HttpxHooks)
    (response : Response) (req0 : Request) (pr : x402PaymentRequiredResponse)
    (sel : PaymentRequirements) (hdr : String) (rr : Response)
    (h1 : response.status_code = 402) (h2 : hooks.is_retry = false)
    (h3 : response.request = some req0)
    (h4 : net.parse_challenge response.content = .ok pr)
    (h5 : hooks.client.select_payment_requirements pr.accepts = .ok sel)
    (h6 : hooks.client.create_payment_header sel pr.x402_version = .ok hdr)
    (h7 : net.send (withPaymentHeaders req0 hdr) none = .ok rr) :
    (on_response net hooks response).final_request =
      some (withPaymentHeaders req0 hdr) ∧
    (on_response net hooks response).resends.map (fun ev => ev.request) =
      [withPaymentHeaders req0 hdr] ∧
    (getHeader req0.headers "X-Payment" = none →
      withPaymentHeaders req0 hdr ≠ req0) := by
  refine ⟨?_, ?_, ?_⟩
  · simp [on_response, h1, h2, h3, h4, h5, h6, h7]
  · simp [on_response, h1, h2, h3, h4, h5, h6, h7]
  · intro h0 hc
    have hx := getHeader_withPaymentHeaders_payment req0 hdr
    rw [hc, h0] at hx
    exact Option.noConfusion hx

/-- Witness: c8_amended_in_place_mutation on the concrete settled
exchange. -/
theorem c8_witness :
    (on_response netOK hooksA resp402).final_request =
      some (withPaymentHeaders reqA "PAID123") ∧
    (on_response netOK hooksA resp402).resends.map (fun ev => ev.request) =
      [withPaymentHeaders reqA "PAID123"] ∧
    withPaymentHeaders reqA "PAID123" ≠ reqA := by
  have h := c8_amended_in_place_mutation netOK hooksA resp402 reqA challengeA
    sampleReq "PAID123" respOK rfl rfl rfl rfl rfl rfl rfl
  exact ⟨h.1, h.2.1, h.2.2 (by decide)⟩

/-- C9 counterexample: a settled exchange whose `X-Payment-Response`
header is present but does not decode falsifies the claim that every
settled exchange returns the result structure — the decode failure
raised inside the `try` is swallowed by the generic handler and the
tool returns the "Request failed" error dict, discarding the resource
result string. -/
theorem c9_counterexample :
    getHeader respOK.headers "X-Payment-Response" = some "receipt-blob" ∧
    envBadReceipt.post = .ok respOK ∧
    parse_pdf envBadReceipt "https://arxiv.org/pdf/1.pdf" "json" =
      (.errorDict, 1) := by
  refine ⟨by decide, rfl, by decide⟩

/-- C9 (amended): for every settled exchange in which the
`X-Payment-Response` header is absent, or present and decodable, the
tool returns the result dict with the resource result string and the
settlement transaction identifier; a missing header is not an error —
the result string is still returned with a null identifier; but when
the header is present and undecodable, the decode failure is swallowed
and the tool returns the structured "Request failed" error dict
without the resource result. -/
theorem c9_amended_settled_result (env : ParsePdfEnv) (url format : String)
    (resp : Response)
    (hk : env.from_key = .ok ())
    (hu : pyStartswith url "http" = true)
    (hf : format = "json" ∨ format = "markdown")
    (hp : env.post = .ok resp) :
    (getHeader resp.headers "X-Payment-Response" = none →
      parse_pdf env url format = (.ok resp.content none, 1)) ∧
    (∀ hv receipt, getHeader resp.headers "X-Payment-Response" = some hv →
      env.decode_x_payment_response hv = .ok receipt →
      parse_pdf env url format =
        (.ok resp.content (some receipt.transaction), 1)) ∧
    (∀ hv e, getHeader resp.headers "X-Payment-Response" = some hv →
      env.decode_x_payment_response hv = .error e →
      parse_pdf env url format = (.errorDict, 1)) := by
  refine ⟨?_, ?_, ?_⟩
  · intro h
    simp [parse_pdf, hk, hu, hf, hp, h]
  · intro hv receipt h hd
    simp [parse_pdf, hk, hu, hf, hp, h, hd]
  · intro hv e h hd
    simp [parse_pdf, hk, hu, hf, hp, h, hd]

/-- Witness: c9_amended_settled_result on a settled exchange without a
settlement header (null hash), on one with a decodable receipt, and on
one whose receipt header does not decode (error dict). -/
theorem c9_witness :
    parse_pdf envNoReceipt "https://arxiv.org/pdf/1.pdf" "json" =
      (.ok "parsed-result" none, 1) ∧
    parse_pdf envWithReceipt "https://arxiv.org/pdf/1.pdf" "json" =
      (.ok "parsed-result" (some "0xabc"), 1) ∧
    parse_pdf envBadReceipt "https://arxiv.org/pdf/1.pdf" "json" =
      (.errorDict, 1) := by
  refine ⟨?_, ?_, ?_⟩
  · exact (c9_amended_settled_result envNoReceipt "https://arxiv.org/pdf/1.pdf"
      "json" respNoHdr rfl (by decide) (Or.inl rfl) rfl).1 (by decide)
  · exact (c9_amended_settled_result envWithReceipt "https://arxiv.org/pdf/1.pdf"
      "json" respOK rfl (by decide) (Or.inl rfl) rfl).2.1 "receipt-blob"
      { transaction := "0xabc" } (by decide) rfl
  · exact (c9_amended_settled_result envBadReceipt "https://arxiv.org/pdf/1.pdf"
      "json" respOK rfl (by decide) (Or.inl rfl) rfl).2.2 "receipt-blob"
      (.otherError "undecodable") (by decide) rfl

/-- C10: a url not starting with "http", or a format other than
"json"/"markdown", makes parse_pdf raise a ValueError with zero HTTP
requests issued; the error propagates as a raised exception and is
not converted into the errorDict structured failure result. -/
theorem c10_validation_before_request (env : ParsePdfEnv) (url format : String)
    (hk : env.from_key = .ok ()) :
    (pyStartswith url "http" = false →
      parse_pdf env url format =
        (.raised (.valueError
          "PDF URL must be a valid URL starting with http or https"), 0)) ∧
    (pyStartswith url "http" = true →
      ¬ (format = "json" ∨ format = "markdown") →
      parse_pdf env url format =
        (.raised (.valueError "Format must be either json or markdown"), 0)) := by
  constructor
  · intro h
    simp [parse_pdf, hk, h]
  · intro h hf
    simp [parse_pdf, hk, h, hf]

/-- Witness: c10_validation_before_request at a non-http url and at an
unsupported format. -/
theorem c10_witness :
    parse_pdf envWithReceipt "ftp://example.com/doc.pdf" "json" =
      (.raised (.valueError
        "PDF URL must be a valid URL starting with http or https"), 0) ∧
    parse_pdf envWithReceipt "https://example.com/doc.pdf" "yaml" =
      (.raised (.valueError "Format must be either json or markdown"), 0) := by
  constructor
  · exact (c10_validation_before_request envWithReceipt
      "ftp://example.com/doc.pdf" "json" rfl).1 (by decide)
  · exact (c10_validation_before_request envWithReceipt
      "https://example.com/doc.pdf" "yaml" rfl).2 (by decide) (by decide)

end X402
